import Mathlib

/-!
Verification development for the comic-generator repository.

The definitions below are a shallow embedding of `src/services/api.ts`
(class `ComicGeneratorAPI`).  JavaScript strings are modelled as Lean
`String` (lists of characters), JS `number` loop counters as `Nat`,
`number | null` as `Option Int`, and fields that may be absent on a TS
object as `Option` fields.  The ambient browser environment (network
outcomes of `apiCall`, `Math.random`, `encodeURIComponent`,
`localStorage`) is passed in as explicit parameters / state.
-/

namespace ComicGen

/-- The character class of the JavaScript regex `\s` (also the set used by
`String.prototype.trim`): ASCII whitespace, NBSP, the Unicode space
separators, line/paragraph separators and the BOM. -/
def isJsWhitespace (c : Char) : Bool :=
  c = ' ' || c = '\t' || c = '\n' || c = '\r' || c = '\x0b' || c = '\x0c' ||
  c = '\u00A0' || c = '\u1680' || ('\u2000' ≤ c && c ≤ '\u200A') ||
  c = '\u2028' || c = '\u2029' || c = '\u202F' || c = '\u205F' || c = '\u3000' ||
  c = '\uFEFF'

/-- Characters of `l` with leading and trailing JS whitespace removed. -/
def jsTrimChars (l : List Char) : List Char :=
  ((l.dropWhile isJsWhitespace).reverse.dropWhile isJsWhitespace).reverse

/-- JavaScript `String.prototype.trim`. -/
def jsTrim (s : String) : String := ⟨jsTrimChars s.data⟩

/-- Does `p` occur at the start of `l`?  (JS `String.prototype.startsWith`.) -/
def startsWithChars : List Char → List Char → Bool
  | [], _ => true
  | _ :: _, [] => false
  | a :: as, b :: bs => a = b && startsWithChars as bs

/-- JS `s.startsWith(p)`. -/
def jsStartsWith (s p : String) : Bool := startsWithChars p.data s.data

/-- Does `needle` occur contiguously inside `hay`? -/
def containsSub (needle : List Char) : List Char → Bool
  | [] => needle.isEmpty
  | c :: rest => startsWithChars needle (c :: rest) || containsSub needle rest

/-- JS `s.includes(sub)`. -/
def jsIncludes (s sub : String) : Bool := containsSub sub.data s.data

/-- JS `s.toLowerCase()` (ASCII letters; the only needle used is ASCII). -/
def jsToLower (s : String) : String := ⟨s.data.map Char.toLower⟩

/-- JS `s.split('\n')`: split at every newline, keeping empty pieces. -/
def splitLines : List Char → List (List Char)
  | [] => [[]]
  | c :: rest =>
    if c = '\n' then [] :: splitLines rest
    else
      match splitLines rest with
      | [] => [[c]]
      | l :: ls => (c :: l) :: ls

/-- JS `arr.join(sep)`. -/
def joinWith (sep : String) : List String → String
  | [] => ""
  | [s] => s
  | s :: rest => s ++ sep ++ joinWith sep rest

/-- Scanner state for splitting on the regex `\n\s*\n`.  After reading a
`'\n'` the scanner is `pending`: it has consumed a whitespace run that may
yet turn into a block separator.  `revPend` holds the consumed run
(reversed) in case no second newline arrives, `tailWs` the whitespace read
since the most recent newline (reversed), and `sawSecond` records whether a
second newline (completing a separator) has been seen. -/
inductive ScanMode where
  | normal : ScanMode
  | pending (revPend tailWs : List Char) (sawSecond : Bool) : ScanMode

/-- Core of JS `script.split(/\n\s*\n/)`.  The regex engine matches, left to
right, a newline, then a greedy run of whitespace ending at the last newline
of the run; whitespace after that last newline belongs to the next piece. -/
def splitBlocksAux : List Char → List Char → ScanMode → List String
  | [], acc, ScanMode.normal => [⟨acc.reverse⟩]
  | [], acc, ScanMode.pending revPend tailWs saw =>
    if saw then [⟨acc.reverse⟩, ⟨tailWs.reverse⟩]
    else [⟨(revPend ++ acc).reverse⟩]
  | c :: rest, acc, ScanMode.normal =>
    if c = '\n' then splitBlocksAux rest acc (ScanMode.pending ['\n'] [] false)
    else splitBlocksAux rest (c :: acc) ScanMode.normal
  | c :: rest, acc, ScanMode.pending revPend tailWs saw =>
    if c = '\n' then splitBlocksAux rest acc (ScanMode.pending (c :: revPend) [] true)
    else if isJsWhitespace c then
      splitBlocksAux rest acc (ScanMode.pending (c :: revPend) (c :: tailWs) saw)
    else if saw then ⟨acc.reverse⟩ :: splitBlocksAux rest (c :: tailWs) ScanMode.normal
    else splitBlocksAux rest (c :: (revPend ++ acc)) ScanMode.normal

/-- JS `script.split(/\n\s*\n/)`. -/
def splitBlocks (s : String) : List String := splitBlocksAux s.data [] ScanMode.normal

/-- `script.split(/\n\s*\n/).filter(block => block.trim().length > 0)`
(line 192 of `api.ts`). -/
def jsBlocks (script : String) : List String :=
  (splitBlocks script).filter fun b => 0 < (jsTrim b).length

/-- An ASCII capital letter. -/
def isUpperAZ (c : Char) : Bool := 'A' ≤ c && c ≤ 'Z'

/-- A character allowed after the first by `/^[A-Z][A-Z\s()']+$/`. -/
def isCueTailChar (c : Char) : Bool :=
  isUpperAZ c || isJsWhitespace c || c = '(' || c = ')' || c = '\''

/-- The dialogue-cue heuristic of `api.ts` line 205:
`/^[A-Z][A-Z\s()']+$/.test(str) && !str.startsWith('INT.') && !str.startsWith('EXT.')`. -/
def isDialogueCue (s : String) : Bool :=
  (match s.data with
   | [] => false
   | c :: rest => isUpperAZ c && !rest.isEmpty && rest.all isCueTailChar)
  && !(jsStartsWith s "INT.") && !(jsStartsWith s "EXT.")

/-- JS `s.replace(/\(.*\)/, '')`: delete the single leftmost-greedy match,
which runs from the first `'('` that is followed (before any newline) by a
`')'`, up to the last such `')'`. -/
def jsReplaceParenAux : List Char → List Char → List Char
  | [], acc => acc.reverse
  | c :: rest, acc =>
    if c = '(' then
      let seg := rest.takeWhile fun d => d ≠ '\n'
      if seg.contains ')' then
        acc.reverse ++ (seg.reverse.takeWhile fun d => d ≠ ')').reverse ++ rest.drop seg.length
      else jsReplaceParenAux rest (c :: acc)
    else jsReplaceParenAux rest (c :: acc)

/-- JS `s.replace(/\(.*\)/, '')` on a whole string. -/
def jsReplaceParen (s : String) : String := ⟨jsReplaceParenAux s.data []⟩

/-- The `{ description, dialogue }` records built by the screenplay parser. -/
structure PanelData where
  description : String
  dialogue : String
deriving DecidableEq, Repr

/-- Loop body of `parseScreenplayToPanels` (`api.ts` lines 194-216): classify
one blank-line-separated block and append the panel(s) it produces. -/
def processBlock (panels : List PanelData) (block : String) : List PanelData :=
  let lines := (splitLines block.data).map fun l => (⟨jsTrimChars l⟩ : String)
  let firstLine := lines.headD ""
  if jsStartsWith firstLine "FADE" then panels
  else if jsStartsWith firstLine "INT." || jsStartsWith firstLine "EXT." then
    panels ++ [⟨"Establishing shot: " ++ block, ""⟩]
  else if isDialogueCue firstLine then
    let character := jsTrim (jsReplaceParen firstLine)
    let dialogueText := jsTrim (joinWith " " (lines.drop 1))
    let lastDescription :=
      match panels.getLast? with
      | some p => p.description
      | none => "A shot of " ++ character ++ " speaking."
    panels ++ [⟨lastDescription, character ++ ": " ++ dialogueText⟩]
  else panels ++ [⟨block, ""⟩]

/-- Inner loop of the merge pass (`api.ts` lines 223-233): fold the remaining
panels into the current accumulator `⟨curDesc, curDial⟩`. -/
def mergeLoop : String → String → List PanelData → List PanelData
  | curDesc, curDial, [] => [⟨curDesc, curDial⟩]
  | curDesc, curDial, p :: rest =>
    if p.dialogue = "" ∧ curDial = "" then
      mergeLoop (curDesc ++ "\n" ++ p.description) curDial rest
    else ⟨curDesc, curDial⟩ :: mergeLoop p.description p.dialogue rest

/-- The merge pass of `parseScreenplayToPanels` (`api.ts` lines 218-234). -/
def mergePanels : List PanelData → List PanelData
  | [] => []
  | p :: rest => mergeLoop p.description p.dialogue rest

/-- `parseScreenplayToPanels` (`api.ts` lines 190-237). -/
def parseScreenplayToPanels (script : String) : List PanelData :=
  let blocks := jsBlocks script
  let panels := blocks.foldl processBlock []
  let mergedPanels := mergePanels panels
  if 0 < mergedPanels.length then mergedPanels else [⟨script, ""⟩]

/-- The trimmed first line of a block, as computed at the top of the loop of
`parseScreenplayToPanels`. -/
def blockFirstLine (block : String) : String :=
  ((splitLines block.data).map fun l => (⟨jsTrimChars l⟩ : String)).headD ""

/-- A block that falls through every special case of the parser loop (no
FADE framing line, no scene heading, no dialogue cue): it becomes a plain
description-only panel. -/
def isPlainActionBlock (block : String) : Bool :=
  !(jsStartsWith (blockFirstLine block) "FADE") &&
  !(jsStartsWith (blockFirstLine block) "INT.") &&
  !(jsStartsWith (blockFirstLine block) "EXT.") &&
  !(isDialogueCue (blockFirstLine block))

/-- The `ComicConfig` record of `src/types/comic.ts`.  The TS string-literal
union fields are modelled as `String`; `seed : number | null` as
`Option Int` (`none` = `null`). -/
structure ComicConfig where
  textAI : String
  imageAI : String
  style : String
  aspectRatio : String
  panelCount : Nat
  pageCount : Nat
  seed : Option Int
  promptBooster : Bool
  speechBubbleFont : String
deriving DecidableEq, Repr

/-- The `ComicPanel` record of `src/types/comic.ts`; optional TS fields are
`Option` fields (`none` = absent). -/
structure ComicPanel where
  id : String
  sceneDescription : String
  dialogue : String
  imageUrl : Option String := none
  promptUsed : Option String := none
  isGenerating : Option Bool := none
  error : Option String := none
deriving DecidableEq, Repr

instance : Inhabited ComicPanel := ⟨⟨"", "", "", none, none, none, none⟩⟩

/-- The `Character` record of `src/types/comic.ts` (fields not used by the
functions under study are kept for shape). -/
structure Character where
  id : String := ""
  name : String := ""
  description : String := ""
  images : List String := []
  previewImages : Option (List String) := none
deriving DecidableEq, Repr

/-- `processScript` (`api.ts` lines 239-259): parse the script, then produce
`pageCount * panelCount` panels by cycling through the parsed sequence,
numbering pages and panels by division and modulus on the loop index. -/
def processScript (script : String) (config : ComicConfig) : List ComicPanel :=
  let panelData := parseScreenplayToPanels script
  if panelData.length = 0 then []
  else
    let totalPanelsToGenerate := config.pageCount * config.panelCount
    (List.range totalPanelsToGenerate).map fun i =>
      let scene := panelData.getD (i % panelData.length) ⟨"", ""⟩
      { id := "page-" ++ toString (i / config.panelCount + 1) ++
              "-panel-" ++ toString (i % config.panelCount + 1),
        sceneDescription := scene.description,
        dialogue := scene.dialogue }

/-- The `styleModifiers` table of `buildImagePrompt` (`api.ts` lines
294-306): positive and negative prompt fragments per style, `none` for a
style not in the table. -/
def styleModifiers (style : String) : Option (String × String) :=
  if style = "cyberpunk" then some ("cyberpunk, neon, futuristic, gritty, Blade Runner aesthetic", "bright, clean")
  else if style = "3d" then some ("3D render, CGI, octane render, unreal engine", "2D, drawing")
  else if style = "photorealistic" then some ("photograph, 8k, DSLR, sharp focus, cinematic", "drawing, painting, cartoon")
  else if style = "manga" then some ("manga, black and white, screentones, sharp ink lines", "color, photorealistic")
  else if style = "western" then some ("western comic book art, bold colors, action lines, dynamic", "manga, realistic")
  else if style = "golden-age" then some ("golden age comics, vintage, 1940s, pulpy", "modern, digital")
  else if style = "modern" then some ("modern comic book, detailed pencils, digital color, cinematic", "vintage, sketch")
  else if style = "anime" then some ("anime film screenshot, cel-shaded, vibrant, detailed background", "realistic, 3d")
  else if style = "noir" then some ("film noir, black and white, high contrast, dramatic shadows", "color, bright")
  else if style = "pop-art" then some ("pop art, ben-day dots, bold colors, graphic", "realistic, subtle")
  else if style = "pixel-art" then some ("16-bit pixel art, retro gaming aesthetic, pixelated", "smooth, vector")
  else none

/-- `buildImagePrompt` (`api.ts` lines 293-312).  Returns `none` when the
style is missing from the table (the JS code would crash reading `style.p`
there; `config.style` is typed so that this cannot happen).  The
`characters` parameter is accepted and unused, as in the source. -/
def buildImagePrompt (basePrompt : String) (config : ComicConfig)
    (_characters : List Character) : Option String :=
  match styleModifiers config.style with
  | none => none
  | some (p, n) =>
    let prompt := "(" ++ p ++ ":1.4), " ++ basePrompt ++ ", comic book panel, detailed art"
    let prompt := if config.promptBooster then prompt ++ ", masterpiece, best quality, ultra detailed" else prompt
    let prompt := if n ≠ "" then prompt ++ " --no " ++ n else prompt
    some prompt

/-- `generateComicPanels` (`api.ts` lines 261-281).  The environment-dependent
outcome of `this.generateImage(panel.sceneDescription, config, characters)`
for the `i`-th panel of the batch is supplied as `gen i`: `Except.ok url`
when the awaited call returns an image reference, `Except.error msg` when it
throws with message `msg`.  Progress callbacks are side effects only and are
not modelled. -/
def generateComicPanels (gen : Nat → Except String String) (config : ComicConfig)
    (characters : List Character) (panels : List ComicPanel) : List ComicPanel :=
  panels.enum.map fun ip =>
    let panel := ip.2
    match gen ip.1 with
    | Except.ok imageUrl =>
      { panel with imageUrl := some imageUrl,
                   promptUsed := buildImagePrompt panel.sceneDescription config characters }
    | Except.error msg => { panel with error := some ("Generation Failed: " ++ msg) }

/-- `getImageDimensions` (`api.ts` lines 330-336). -/
def getImageDimensions (aspectRatio : String) : Nat × Nat :=
  if aspectRatio = "1:1" then (1024, 1024)
  else if aspectRatio = "4:3" then (1024, 768)
  else if aspectRatio = "3:4" then (768, 1024)
  else if aspectRatio = "16:9" then (1280, 720)
  else (1024, 768)

/-- The `modelMap` lookup with fallback of `generateImageWithPollinations`
(`api.ts` lines 105-106): `modelMap[config.imageAI] || 'flux'`. -/
def pollinationsModel (imageAI : String) : String :=
  if imageAI = "flux" then "flux"
  else if imageAI = "kontext" then "kontext"
  else if imageAI = "turbo" then "turbo"
  else if imageAI = "gptimage" then "gptimage"
  else if imageAI = "pollinations" then "flux"
  else "flux"

/-- The `URLSearchParams` contents built by `generateImageWithPollinations`
(`api.ts` lines 107-112), in insertion order.  The conditional spread
`...(config.seed && { seed: config.seed.toString() })` adds a `seed` entry
exactly when `config.seed` is truthy (non-null and non-zero). -/
def pollinationsParams (config : ComicConfig) : List (String × String) :=
  [("width", toString (getImageDimensions config.aspectRatio).1),
   ("height", toString (getImageDimensions config.aspectRatio).2),
   ("model", pollinationsModel config.imageAI)] ++
  (match config.seed with
   | some s => if s ≠ 0 then [("seed", toString s)] else []
   | none => [])

/-- `URLSearchParams.toString()` on the parameter list (our keys and values
contain only characters that form-encoding leaves unchanged). -/
def serializeParams (ps : List (String × String)) : String :=
  joinWith "&" (ps.map fun kv => kv.1 ++ "=" ++ kv.2)

/-- `generateImageWithPollinations` (`api.ts` lines 104-114).  The browser
builtin `encodeURIComponent` is passed in as `enc`. -/
def generateImageWithPollinations (enc : String → String) (prompt : String)
    (config : ComicConfig) : String :=
  "https://image.pollinations.ai/prompt/" ++ enc prompt ++ "?" ++
    serializeParams (pollinationsParams config)

/-- The `APIKeys` record: in `api.ts` the `gemini` entry is used as an array
of keys (indexed and measured with `.length`, as the key-rotation UI
stores it), `huggingface` and `pollinations` as single keys.  Absent
object properties are `none`. -/
structure APIKeys where
  gemini : Option (List String) := none
  huggingface : Option String := none
  pollinations : Option String := none
deriving DecidableEq, Repr

/-- The mutable fields of class `ComicGeneratorAPI` (`api.ts` lines 6-7). -/
structure ComicGeneratorAPIState where
  apiKeys : APIKeys
  geminiKeyIndex : Nat
deriving DecidableEq, Repr

/-- The TS object spread `{ ...a, ...b }` on `APIKeys`: a property of `b`
overrides the one of `a` when present. -/
def mergeAPIKeys (a b : APIKeys) : APIKeys :=
  { gemini := match b.gemini with | some g => some g | none => a.gemini,
    huggingface := match b.huggingface with | some h => some h | none => a.huggingface,
    pollinations := match b.pollinations with | some p => some p | none => a.pollinations }

/-- `setAPIKeys` (`api.ts` lines 9-13): merge the update into the in-memory
pool, reset the rotation cursor, and write the update (serialized) under the
storage key `comic-api-keys`.  `storage` models the value recorded under
that key in `localStorage` (`none` = no record). -/
def setAPIKeys (keys : APIKeys) (st : ComicGeneratorAPIState)
    (_storage : Option APIKeys) : ComicGeneratorAPIState × Option APIKeys :=
  ({ apiKeys := mergeAPIKeys st.apiKeys keys, geminiKeyIndex := 0 }, some keys)

/-- `loadAPIKeys` (`api.ts` lines 19-29): read the stored record, if any,
into memory and reset the cursor. -/
def loadAPIKeys (st : ComicGeneratorAPIState) (storage : Option APIKeys) :
    ComicGeneratorAPIState :=
  match storage with
  | some keys => { apiKeys := keys, geminiKeyIndex := 0 }
  | none => st

/-- `getNextGeminiKey` (`api.ts` lines 31-38): return the key under the
cursor (`none` models the `undefined` of an out-of-range read) and advance
the cursor by one modulo the pool size. -/
def getNextGeminiKey (st : ComicGeneratorAPIState) :
    Option String × ComicGeneratorAPIState :=
  match st.apiKeys.gemini with
  | none => (none, st)
  | some keys =>
    if keys.length = 0 then (none, st)
    else (keys.get? st.geminiKeyIndex,
          { st with geminiKeyIndex := (st.geminiKeyIndex + 1) % keys.length })

/-- The rate-limit test of `api.ts` line 75:
`error.message && (error.message.includes('429') || error.message.toLowerCase().includes('rate limit'))`. -/
def isRateLimitMsg (msg : String) : Bool :=
  !(msg = "") && (jsIncludes msg "429" || jsIncludes (jsToLower msg) "rate limit")

/-- The deterministic part of the backoff of `api.ts` line 76:
`Math.pow(2, Math.floor(attempt / keys.length)) * 1000`. -/
def backoffBase (poolSize attempt : Nat) : Nat :=
  2 ^ (attempt / poolSize) * 1000

/-- One row of the execution trace of `_callGeminiWithRetry`: the loop
counter, the cursor value read before `getNextGeminiKey`, the key obtained,
the outcome of `apiCall` (`none` when the falsy-key `continue` skipped the
call), and the backoff delay awaited after the attempt, if any. -/
instance exceptDecEq {ε α : Type} [DecidableEq ε] [DecidableEq α] :
    DecidableEq (Except ε α) := fun x y =>
  match x, y with
  | Except.ok a, Except.ok b => decidable_of_iff (a = b) (by simp)
  | Except.ok _, Except.error _ => isFalse (by simp)
  | Except.error _, Except.ok _ => isFalse (by simp)
  | Except.error d, Except.error e => decidable_of_iff (d = e) (by simp)

structure AttemptRec (α : Type) where
  attempt : Nat
  keyIndex : Nat
  key : Option String
  outcome : Option (Except String α)
  delayMs : Option Nat
deriving DecidableEq, Repr

instance {α : Type} : Inhabited (AttemptRec α) := ⟨⟨0, 0, none, none, none⟩⟩

/-- The `for` loop of `_callGeminiWithRetry` (`api.ts` lines 62-82), with
the loop index made explicit and the number of remaining iterations as
fuel.  `op a k` is the environment-supplied outcome of `apiCall(k)` on
loop iteration `a`; `jitter a` is the environment-chosen value of
`Math.random() * 1000` drawn on iteration `a` (a nonnegative quantity
below 1000; only its nonnegativity matters to the properties proved).  Returns the overall outcome (line 70 or the
final `throw` of line 82), the trace of attempts, and the final state. -/
def retryLoop (op : Nat → String → Except String α) (jitter : Nat → Nat)
    (keys : List String) (total : Nat) :
    Nat → Nat → ComicGeneratorAPIState → Option String →
    Except String α × List (AttemptRec α) × ComicGeneratorAPIState
  | 0, _attempt, st, lastError =>
    (Except.error (lastError.getD ("All " ++ toString total ++ " retry attempts failed.")), [], st)
  | fuel + 1, attempt, st, lastError =>
    let keyIndex := st.geminiKeyIndex
    let apiKey := (getNextGeminiKey st).1
    let st' := (getNextGeminiKey st).2
    match apiKey with
    | none =>
      let r := retryLoop op jitter keys total fuel (attempt + 1) st' lastError
      (r.1, ⟨attempt, keyIndex, none, none, none⟩ :: r.2.1, r.2.2)
    | some k =>
      if k = "" then
        let r := retryLoop op jitter keys total fuel (attempt + 1) st' lastError
        (r.1, ⟨attempt, keyIndex, some k, none, none⟩ :: r.2.1, r.2.2)
      else
        match op attempt k with
        | Except.ok v => (Except.ok v, [⟨attempt, keyIndex, some k, some (Except.ok v), none⟩], st')
        | Except.error e =>
          let d := if isRateLimitMsg e then some (backoffBase keys.length attempt + jitter attempt)
                   else none
          let r := retryLoop op jitter keys total fuel (attempt + 1) st' (some e)
          (r.1, ⟨attempt, keyIndex, some k, some (Except.error e), d⟩ :: r.2.1, r.2.2)

/-- `_callGeminiWithRetry` (`api.ts` lines 50-83): guard against an empty
pool, then run `keys.length * maxRetriesPerKey` loop iterations. -/
def callGeminiWithRetry (op : Nat → String → Except String α) (jitter : Nat → Nat)
    (maxRetriesPerKey : Nat) (st : ComicGeneratorAPIState) :
    Except String α × List (AttemptRec α) × ComicGeneratorAPIState :=
  match st.apiKeys.gemini with
  | none => (Except.error "No Gemini API keys configured. Please add at least one key.", [], st)
  | some keys =>
    if keys.length = 0 then
      (Except.error "No Gemini API keys configured. Please add at least one key.", [], st)
    else
      let totalAttempts := keys.length * maxRetriesPerKey
      retryLoop op jitter keys totalAttempts totalAttempts 0 st none

/-- How many rows of a trace actually invoked the underlying operation. -/
def invokedCount (tr : List (AttemptRec α)) : Nat :=
  (tr.filter fun r => r.outcome.isSome).length


/-! ## Lemmas about the merge pass -/

theorem joinWith_cons_cons (sep x y : String) (l : List String) :
    joinWith sep (x :: y :: l) = x ++ sep ++ joinWith sep (y :: l) := rfl

theorem joinWith_glue (sep d x : String) (l : List String) :
    joinWith sep ((d ++ sep ++ x) :: l) = d ++ sep ++ joinWith sep (x :: l) := by
  cases l with
  | nil => rfl
  | cons y ys => simp only [joinWith_cons_cons, String.append_assoc]

theorem mergeLoop_all_empty (ps : List PanelData) (d : String)
    (h : ∀ p ∈ ps, p.dialogue = "") :
    mergeLoop d "" ps = [⟨joinWith "\n" (d :: ps.map PanelData.description), ""⟩] := by
  induction ps generalizing d with
  | nil => rfl
  | cons p rest ih =>
    have hp : p.dialogue = "" := h p (List.mem_cons_self _ _)
    have hrest : ∀ q ∈ rest, q.dialogue = "" := fun q hq => h q (List.mem_cons_of_mem _ hq)
    have hstep : mergeLoop d "" (p :: rest) =
        if p.dialogue = "" ∧ ("" : String) = "" then
          mergeLoop (d ++ "\n" ++ p.description) "" rest
        else ⟨d, ""⟩ :: mergeLoop p.description p.dialogue rest := rfl
    rw [hstep, if_pos (And.intro hp rfl), ih _ hrest, List.map_cons, joinWith_cons_cons,
      joinWith_glue]

theorem mergePanels_all_empty (p : PanelData) (ps : List PanelData)
    (h : ∀ q ∈ p :: ps, q.dialogue = "") :
    mergePanels (p :: ps) =
      [⟨joinWith "\n" ((p :: ps).map PanelData.description), ""⟩] := by
  have hp : p.dialogue = "" := h p (List.mem_cons_self _ _)
  simp only [mergePanels]
  rw [hp, mergeLoop_all_empty ps p.description
        (fun q hq => h q (List.mem_cons_of_mem _ hq)), List.map_cons]

theorem mergeLoop_dialogue_mem (ps : List PanelData) :
    ∀ (d dl : String) (r : PanelData), r ∈ mergeLoop d dl ps → r.dialogue ≠ "" →
      r = ⟨d, dl⟩ ∨ r ∈ ps := by
  induction ps with
  | nil =>
    intro d dl r hr _
    simp only [mergeLoop, List.mem_singleton] at hr
    exact Or.inl hr
  | cons p rest ih =>
    intro d dl r hr hne
    by_cases hc : p.dialogue = "" ∧ dl = ""
    · simp only [mergeLoop, if_pos hc] at hr
      rcases ih _ _ r hr hne with h1 | h2
      · exact absurd (by rw [h1]; exact hc.2) hne
      · exact Or.inr (List.mem_cons_of_mem _ h2)
    · simp only [mergeLoop, if_neg hc, List.mem_cons] at hr
      rcases hr with h1 | h2
      · exact Or.inl h1
      · rcases ih _ _ r h2 hne with h3 | h4
        · rw [show (⟨p.description, p.dialogue⟩ : PanelData) = p from rfl] at h3
          exact Or.inr (h3 ▸ List.mem_cons_self p rest)
        · exact Or.inr (List.mem_cons_of_mem _ h4)

theorem mergePanels_dialogue_mem (ps : List PanelData) (r : PanelData)
    (hr : r ∈ mergePanels ps) (hne : r.dialogue ≠ "") : r ∈ ps := by
  cases ps with
  | nil => simp [mergePanels] at hr
  | cons p rest =>
    simp only [mergePanels] at hr
    rcases mergeLoop_dialogue_mem rest p.description p.dialogue r hr hne with h1 | h2
    · rw [show (⟨p.description, p.dialogue⟩ : PanelData) = p from rfl] at h1
      exact h1 ▸ List.mem_cons_self p rest
    · exact List.mem_cons_of_mem _ h2

/-! ## Lemmas about block classification and the whole parser -/

theorem processBlock_plain (panels : List PanelData) (block : String)
    (h : isPlainActionBlock block = true) :
    processBlock panels block = panels ++ [⟨block, ""⟩] := by
  simp only [isPlainActionBlock, Bool.and_eq_true, Bool.not_eq_true'] at h
  obtain ⟨⟨⟨h1, h2⟩, h3⟩, h4⟩ := h
  simp only [blockFirstLine] at h1 h2 h3 h4
  simp only [processBlock, h1, h2, h3, h4, Bool.or_self, if_neg, Bool.false_eq_true,
    not_false_iff, if_false]

theorem foldl_processBlock_plain (bs : List String) (panels : List PanelData)
    (h : ∀ b ∈ bs, isPlainActionBlock b = true) :
    bs.foldl processBlock panels = panels ++ bs.map (fun b => ⟨b, ""⟩) := by
  induction bs generalizing panels with
  | nil => simp
  | cons b rest ih =>
    rw [List.foldl_cons, processBlock_plain _ _ (h b (List.mem_cons_self _ _)),
        ih _ (fun x hx => h x (List.mem_cons_of_mem _ hx))]
    simp

theorem parse_all_plain (script : String)
    (h : ∀ b ∈ jsBlocks script, isPlainActionBlock b = true) :
    parseScreenplayToPanels script =
      [⟨if jsBlocks script = [] then script else joinWith "\n" (jsBlocks script), ""⟩] := by
  have hrw : parseScreenplayToPanels script =
      (if 0 < (mergePanels ((jsBlocks script).foldl processBlock [])).length
       then mergePanels ((jsBlocks script).foldl processBlock [])
       else [⟨script, ""⟩]) := rfl
  rw [hrw, foldl_processBlock_plain _ _ h, List.nil_append]
  cases hbs : jsBlocks script with
  | nil => simp [mergePanels]
  | cons b rest =>
    have hall : ∀ q ∈ (⟨b, ""⟩ : PanelData) :: rest.map (fun x => (⟨x, ""⟩ : PanelData)),
        q.dialogue = "" := by
      intro q hq
      rcases List.mem_cons.mp hq with hq1 | hq2
      · rw [hq1]
      · rcases List.mem_map.mp hq2 with ⟨x, _, hx⟩
        rw [← hx]
    rw [List.map_cons, mergePanels_all_empty _ _ hall]
    have hdesc : ((⟨b, ""⟩ : PanelData) :: rest.map fun x => (⟨x, ""⟩ : PanelData)).map
        PanelData.description = b :: rest := by
      simp only [List.map_cons, List.map_map]
      exact congrArg (b :: ·) (List.map_id' rest)
    rw [hdesc]
    simp

theorem parse_ne_nil (script : String) : parseScreenplayToPanels script ≠ [] := by
  have hrw : parseScreenplayToPanels script =
      (if 0 < (mergePanels ((jsBlocks script).foldl processBlock [])).length
       then mergePanels ((jsBlocks script).foldl processBlock [])
       else [⟨script, ""⟩]) := rfl
  rw [hrw]
  by_cases h : 0 < (mergePanels ((jsBlocks script).foldl processBlock [])).length
  · simp only [if_pos h]
    exact List.length_pos.mp h
  · simp only [if_neg h]
    simp

theorem getD_range_map {β : Type} (f : Nat → β) (n i : Nat) (d : β) (h : i < n) :
    ((List.range n).map f).getD i d = f i := by
  rw [List.getD_eq_getElem?_getD, List.getElem?_map, List.getElem?_range h]
  rfl

/-! ## Claim theorems C1-C4 -/

/-- C1 (counterexample): on the script `"EXT. ALLEY - NIGHT\nA figure walks.\n\nNOVA\nHello."`
with `panelCount = 1` and `pageCount = 1`, the pipeline does NOT yield a single
panel with dialogue `"NOVA: Hello."`: the only panel returned has empty dialogue. -/
theorem claim1_counterexample :
    ¬ ∃ p : ComicPanel,
        processScript "EXT. ALLEY - NIGHT\nA figure walks.\n\nNOVA\nHello."
            ⟨"openai", "flux", "cyberpunk", "16:9", 1, 1, none, true, "comic-sans"⟩ = [p] ∧
        jsIncludes p.sceneDescription "A figure walks." = true ∧
        p.dialogue = "NOVA: Hello." := by
  rintro ⟨p, hp, -, hd⟩
  have hps : processScript "EXT. ALLEY - NIGHT\nA figure walks.\n\nNOVA\nHello."
      ⟨"openai", "flux", "cyberpunk", "16:9", 1, 1, none, true, "comic-sans"⟩ =
      [⟨"page-1-panel-1", "Establishing shot: EXT. ALLEY - NIGHT\nA figure walks.", "",
        none, none, none, none⟩] := by rfl
  rw [hps] at hp
  injection hp with h1 _
  rw [← h1] at hd
  exact absurd hd (by decide)

/-- C1 (amended): on that script the character-cue block starts a NEW panel
that copies the previous panel description (so the parser yields two
panels, the second carrying `"NOVA: Hello."`), and with `panelCount = 1`,
`pageCount = 1` the pipeline returns exactly one panel whose description
includes `"A figure walks."` and whose dialogue is EMPTY. -/
theorem claim1_amended :
    parseScreenplayToPanels "EXT. ALLEY - NIGHT\nA figure walks.\n\nNOVA\nHello." =
      [⟨"Establishing shot: EXT. ALLEY - NIGHT\nA figure walks.", ""⟩,
       ⟨"Establishing shot: EXT. ALLEY - NIGHT\nA figure walks.", "NOVA: Hello."⟩] ∧
    processScript "EXT. ALLEY - NIGHT\nA figure walks.\n\nNOVA\nHello."
        ⟨"openai", "flux", "cyberpunk", "16:9", 1, 1, none, true, "comic-sans"⟩ =
      [⟨"page-1-panel-1", "Establishing shot: EXT. ALLEY - NIGHT\nA figure walks.", "",
        none, none, none, none⟩] ∧
    jsIncludes "Establishing shot: EXT. ALLEY - NIGHT\nA figure walks." "A figure walks." = true := by
  exact ⟨rfl, rfl, rfl⟩

/-- C2: in the merge pass, a run of panels that all lack dialogue collapses
to a single panel whose description is the newline-joined concatenation of
their descriptions (in particular any two adjacent dialogue-free panels
merge); a panel with non-empty dialogue is never merged — it reappears
verbatim as an element of the input list; and the two-block scene-heading +
action input parses to one merged panel. -/
theorem claim2_merge :
    (∀ p q : PanelData, p.dialogue = "" → q.dialogue = "" →
        mergePanels [p, q] = [⟨p.description ++ "\n" ++ q.description, ""⟩]) ∧
    (∀ (p : PanelData) (ps : List PanelData), (∀ q ∈ p :: ps, q.dialogue = "") →
        mergePanels (p :: ps) =
          [⟨joinWith "\n" ((p :: ps).map PanelData.description), ""⟩]) ∧
    (∀ (ps : List PanelData) (r : PanelData),
        r ∈ mergePanels ps → r.dialogue ≠ "" → r ∈ ps) ∧
    parseScreenplayToPanels "INT. LAB - DAY\n\nA robot assembles a device." =
      [⟨"Establishing shot: INT. LAB - DAY\nA robot assembles a device.", ""⟩] := by
  refine ⟨?_, mergePanels_all_empty, mergePanels_dialogue_mem, rfl⟩
  intro p q hp hq
  have h := mergePanels_all_empty p [q] ?_
  · exact h
  · intro x hx
    rcases List.mem_cons.mp hx with h1 | h2
    · rw [h1]; exact hp
    · rcases List.mem_cons.mp h2 with h3 | h4
      · rw [h3]; exact hq
      · cases h4

/-- C2 witness: the merge of two concrete dialogue-free panels. -/
theorem claim2_merge_witness :
    mergePanels [⟨"a", ""⟩, ⟨"b", ""⟩] = [⟨"a\nb", ""⟩] :=
  claim2_merge.1 ⟨"a", ""⟩ ⟨"b", ""⟩ rfl rfl

/-- C3 (counterexample): the input `"Hello there.\n\nMore text."` has no
recognizable screenplay structure (every block is a plain action block),
yet the single panel returned does not have the ENTIRE input as its
description — the blank-line separator is collapsed to one newline. -/
theorem claim3_counterexample :
    (∀ b ∈ jsBlocks "Hello there.\n\nMore text.", isPlainActionBlock b = true) ∧
    ¬ ∃ p : PanelData,
        parseScreenplayToPanels "Hello there.\n\nMore text." = [p] ∧
        p.description = "Hello there.\n\nMore text." := by
  refine ⟨by decide, ?_⟩
  rintro ⟨p, hp, hd⟩
  have hps : parseScreenplayToPanels "Hello there.\n\nMore text." =
      [⟨"Hello there.\nMore text.", ""⟩] := by rfl
  rw [hps] at hp
  injection hp with h1 _
  rw [← h1] at hd
  exact absurd hd (by decide)

/-- C3 (amended): for input whose blocks all lack screenplay structure the
parser returns exactly one dialogue-free panel whose description is the
blocks rejoined with single newlines (the whole input when there is no
blank-line block separator, i.e. when the block split returns the input
itself, and also when the input is pure whitespace). -/
theorem claim3_amended (script : String)
    (h : ∀ b ∈ jsBlocks script, isPlainActionBlock b = true) :
    parseScreenplayToPanels script =
      [⟨if jsBlocks script = [] then script else joinWith "\n" (jsBlocks script), ""⟩] ∧
    (jsBlocks script = [script] → parseScreenplayToPanels script = [⟨script, ""⟩]) := by
  refine ⟨parse_all_plain script h, fun hbs => ?_⟩
  rw [parse_all_plain script h, hbs]
  rfl

/-- C3 witness: a single-block structureless input comes back as one panel
equal to the whole input. -/
theorem claim3_amended_witness :
    parseScreenplayToPanels "just some prose" = [⟨"just some prose", ""⟩] :=
  (claim3_amended "just some prose" (by decide)).2 (by rfl)

/-- C4: `processScript` returns exactly `pageCount * panelCount` panels, and
the `i`-th (0-based) output panel copies the description and dialogue of
parsed panel `i mod L` (`L` = length of the parsed sequence, always ≥ 1)
and has id `page-⌊i / panelCount⌋+1-panel-(i mod panelCount)+1`. -/
theorem claim4_processScript (script : String) (config : ComicConfig) :
    (processScript script config).length = config.pageCount * config.panelCount ∧
    ∀ i, i < config.pageCount * config.panelCount →
      (processScript script config).getD i default =
        { id := "page-" ++ toString (i / config.panelCount + 1) ++
                "-panel-" ++ toString (i % config.panelCount + 1),
          sceneDescription :=
            ((parseScreenplayToPanels script).getD
              (i % (parseScreenplayToPanels script).length) ⟨"", ""⟩).description,
          dialogue :=
            ((parseScreenplayToPanels script).getD
              (i % (parseScreenplayToPanels script).length) ⟨"", ""⟩).dialogue } := by
  have hne : ¬ (parseScreenplayToPanels script).length = 0 := by
    simpa [List.length_eq_zero] using parse_ne_nil script
  have hrw : processScript script config =
      (List.range (config.pageCount * config.panelCount)).map fun i =>
        { id := "page-" ++ toString (i / config.panelCount + 1) ++
                "-panel-" ++ toString (i % config.panelCount + 1),
          sceneDescription :=
            ((parseScreenplayToPanels script).getD
              (i % (parseScreenplayToPanels script).length) ⟨"", ""⟩).description,
          dialogue :=
            ((parseScreenplayToPanels script).getD
              (i % (parseScreenplayToPanels script).length) ⟨"", ""⟩).dialogue } := by
    have hstep : processScript script config =
        (if (parseScreenplayToPanels script).length = 0 then []
         else (List.range (config.pageCount * config.panelCount)).map fun i =>
           { id := "page-" ++ toString (i / config.panelCount + 1) ++
                   "-panel-" ++ toString (i % config.panelCount + 1),
             sceneDescription :=
               ((parseScreenplayToPanels script).getD
                 (i % (parseScreenplayToPanels script).length) ⟨"", ""⟩).description,
             dialogue :=
               ((parseScreenplayToPanels script).getD
                 (i % (parseScreenplayToPanels script).length) ⟨"", ""⟩).dialogue }) := rfl
    rw [hstep, if_neg hne]
  constructor
  · rw [hrw, List.length_map, List.length_range]
  · intro i hi
    rw [hrw, getD_range_map _ _ _ _ hi]

/-- C4 witness: a one-panel parse cycled out to 2 pages of 2 panels. -/
theorem claim4_processScript_witness :
    (processScript "A story." ⟨"openai", "flux", "cyberpunk", "4:3", 2, 2, none, true,
        "comic-sans"⟩).length = 4 ∧
    (processScript "A story." ⟨"openai", "flux", "cyberpunk", "4:3", 2, 2, none, true,
        "comic-sans"⟩).getD 3 default =
      { id := "page-2-panel-2", sceneDescription := "A story.", dialogue := "" } := by
  have h := claim4_processScript "A story."
    ⟨"openai", "flux", "cyberpunk", "4:3", 2, 2, none, true, "comic-sans"⟩
  refine ⟨h.1, ?_⟩
  rw [h.2 3 (by decide)]
  rfl

/-! ## Lemmas about the rotating-credential retry wrapper -/

theorem getNextGeminiKey_some (st : ComicGeneratorAPIState) (keys : List String)
    (hg : st.apiKeys.gemini = some keys) (hK : keys ≠ []) :
    getNextGeminiKey st =
      (keys.get? st.geminiKeyIndex,
       { st with geminiKeyIndex := (st.geminiKeyIndex + 1) % keys.length }) := by
  simp only [getNextGeminiKey, hg]
  rw [if_neg (by simpa [List.length_eq_zero] using hK)]

theorem callGeminiWithRetry_eq (op : Nat → String → Except String α) (jitter : Nat → Nat)
    (R : Nat) (st : ComicGeneratorAPIState) (keys : List String)
    (hg : st.apiKeys.gemini = some keys) (hK : keys ≠ []) :
    callGeminiWithRetry op jitter R st =
      retryLoop op jitter keys (keys.length * R) (keys.length * R) 0 st none := by
  simp only [callGeminiWithRetry, hg]
  rw [if_neg (by simpa [List.length_eq_zero] using hK)]

theorem retryLoop_step_ok (op : Nat → String → Except String α) (jitter : Nat → Nat)
    (keys : List String) (total fuel attempt : Nat) (st : ComicGeneratorAPIState)
    (lastError : Option String) (k : String) (v : α)
    (hg : st.apiKeys.gemini = some keys)
    (hk : keys.get? st.geminiKeyIndex = some k) (hk2 : ¬ k = "")
    (hop : op attempt k = Except.ok v) :
    retryLoop op jitter keys total (fuel + 1) attempt st lastError =
      (Except.ok v, [⟨attempt, st.geminiKeyIndex, some k, some (Except.ok v), none⟩],
       { st with geminiKeyIndex := (st.geminiKeyIndex + 1) % keys.length }) := by
  have hK : keys ≠ [] := by
    intro hnil; rw [hnil] at hk; simp at hk
  simp only [retryLoop, getNextGeminiKey_some st keys hg hK, hk, if_neg hk2, hop]

theorem retryLoop_step_err (op : Nat → String → Except String α) (jitter : Nat → Nat)
    (keys : List String) (total fuel attempt : Nat) (st : ComicGeneratorAPIState)
    (lastError : Option String) (k : String) (e : String)
    (hg : st.apiKeys.gemini = some keys)
    (hk : keys.get? st.geminiKeyIndex = some k) (hk2 : ¬ k = "")
    (hop : op attempt k = Except.error e) :
    retryLoop op jitter keys total (fuel + 1) attempt st lastError =
      ((retryLoop op jitter keys total fuel (attempt + 1)
          { st with geminiKeyIndex := (st.geminiKeyIndex + 1) % keys.length } (some e)).1,
       ⟨attempt, st.geminiKeyIndex, some k, some (Except.error e),
         if isRateLimitMsg e then some (backoffBase keys.length attempt + jitter attempt)
         else none⟩ ::
         (retryLoop op jitter keys total fuel (attempt + 1)
           { st with geminiKeyIndex := (st.geminiKeyIndex + 1) % keys.length } (some e)).2.1,
       (retryLoop op jitter keys total fuel (attempt + 1)
         { st with geminiKeyIndex := (st.geminiKeyIndex + 1) % keys.length } (some e)).2.2) := by
  have hK : keys ≠ [] := by
    intro hnil; rw [hnil] at hk; simp at hk
  simp only [retryLoop, getNextGeminiKey_some st keys hg hK, hk, if_neg hk2, hop]

theorem retryLoop_all_fail (op : Nat → String → Except String α) (jitter : Nat → Nat)
    (keys : List String) (total : Nat) (hkeys : ∀ k ∈ keys, k ≠ "")
    (hop : ∀ a k v, op a k ≠ Except.ok v) :
    ∀ (fuel attempt : Nat) (st : ComicGeneratorAPIState) (lastError : Option String),
      st.apiKeys.gemini = some keys → st.geminiKeyIndex < keys.length →
      (retryLoop op jitter keys total fuel attempt st lastError).2.1.length = fuel ∧
      (∀ r ∈ (retryLoop op jitter keys total fuel attempt st lastError).2.1,
        r.outcome.isSome = true) ∧
      ∃ e, (retryLoop op jitter keys total fuel attempt st lastError).1 =
        Except.error e := by
  intro fuel
  induction fuel with
  | zero =>
    intro attempt st lastError _ _
    refine ⟨rfl, ?_, ⟨_, rfl⟩⟩
    intro r hr
    simp only [retryLoop] at hr
    cases hr
  | succ fuel ih =>
    intro attempt st lastError hg hidx
    have hk : keys.get? st.geminiKeyIndex = some (keys.get ⟨st.geminiKeyIndex, hidx⟩) :=
      List.get?_eq_get hidx
    have hk2 : ¬ keys.get ⟨st.geminiKeyIndex, hidx⟩ = "" :=
      hkeys _ (List.get_mem keys _ _)
    cases hop2 : op attempt (keys.get ⟨st.geminiKeyIndex, hidx⟩) with
    | ok v => exact absurd hop2 (hop _ _ _)
    | error e =>
      rw [retryLoop_step_err op jitter keys total fuel attempt st lastError _ e hg hk hk2 hop2]
      obtain ⟨ihl, ihm, ihe⟩ := ih (attempt + 1)
        { st with geminiKeyIndex := (st.geminiKeyIndex + 1) % keys.length } (some e) hg
        (Nat.mod_lt _ (Nat.lt_of_le_of_lt (Nat.zero_le _) hidx))
      refine ⟨by simpa using ihl, ?_, ihe⟩
      intro r hr
      rcases List.mem_cons.mp hr with h1 | h2
      · rw [h1]; rfl
      · exact ihm r h2

theorem retryLoop_len_le (op : Nat → String → Except String α) (jitter : Nat → Nat)
    (keys : List String) (total : Nat) (hkeys : ∀ k ∈ keys, k ≠ "") :
    ∀ (fuel attempt : Nat) (st : ComicGeneratorAPIState) (lastError : Option String),
      st.apiKeys.gemini = some keys → st.geminiKeyIndex < keys.length →
      (retryLoop op jitter keys total fuel attempt st lastError).2.1.length ≤ fuel := by
  intro fuel
  induction fuel with
  | zero => intro _ _ _ _ _; exact Nat.le_refl 0
  | succ fuel ih =>
    intro attempt st lastError hg hidx
    have hKpos : 0 < keys.length := Nat.lt_of_le_of_lt (Nat.zero_le _) hidx
    have hk : keys.get? st.geminiKeyIndex = some (keys.get ⟨st.geminiKeyIndex, hidx⟩) :=
      List.get?_eq_get hidx
    have hk2 : ¬ keys.get ⟨st.geminiKeyIndex, hidx⟩ = "" :=
      hkeys _ (List.get_mem keys _ _)
    cases hop : op attempt (keys.get ⟨st.geminiKeyIndex, hidx⟩) with
    | ok v =>
      rw [retryLoop_step_ok op jitter keys total fuel attempt st lastError _ v hg hk hk2 hop]
      exact Nat.succ_le_succ (Nat.zero_le _)
    | error e =>
      rw [retryLoop_step_err op jitter keys total fuel attempt st lastError _ e hg hk hk2 hop]
      exact Nat.succ_le_succ (ih (attempt + 1)
        { st with geminiKeyIndex := (st.geminiKeyIndex + 1) % keys.length } (some e) hg
        (Nat.mod_lt _ hKpos))

theorem retryLoop_cursor (op : Nat → String → Except String α) (jitter : Nat → Nat)
    (keys : List String) (total : Nat) (hkeys : ∀ k ∈ keys, k ≠ "") :
    ∀ (fuel attempt : Nat) (st : ComicGeneratorAPIState) (lastError : Option String),
      st.apiKeys.gemini = some keys → st.geminiKeyIndex < keys.length →
      (retryLoop op jitter keys total fuel attempt st lastError).2.2.apiKeys = st.apiKeys ∧
      ((retryLoop op jitter keys total fuel attempt st lastError).2.2.geminiKeyIndex =
        if (retryLoop op jitter keys total fuel attempt st lastError).2.1.length = 0 then
          st.geminiKeyIndex
        else (st.geminiKeyIndex +
          (retryLoop op jitter keys total fuel attempt st lastError).2.1.length) %
            keys.length) ∧
      (∀ j, j < (retryLoop op jitter keys total fuel attempt st lastError).2.1.length →
        (((retryLoop op jitter keys total fuel attempt st lastError).2.1.getD j
            default).keyIndex = (st.geminiKeyIndex + j) % keys.length ∧
         ((retryLoop op jitter keys total fuel attempt st lastError).2.1.getD j
            default).attempt = attempt + j)) := by
  intro fuel
  induction fuel with
  | zero =>
    intro attempt st lastError _ _
    refine ⟨rfl, rfl, ?_⟩
    intro j hj
    exact absurd hj (Nat.not_lt_zero j)
  | succ fuel ih =>
    intro attempt st lastError hg hidx
    have hKpos : 0 < keys.length := Nat.lt_of_le_of_lt (Nat.zero_le _) hidx
    have hk : keys.get? st.geminiKeyIndex = some (keys.get ⟨st.geminiKeyIndex, hidx⟩) :=
      List.get?_eq_get hidx
    have hk2 : ¬ keys.get ⟨st.geminiKeyIndex, hidx⟩ = "" :=
      hkeys _ (List.get_mem keys _ _)
    cases hop : op attempt (keys.get ⟨st.geminiKeyIndex, hidx⟩) with
    | ok v =>
      rw [retryLoop_step_ok op jitter keys total fuel attempt st lastError _ v hg hk hk2 hop]
      refine ⟨rfl, by simp, ?_⟩
      intro j hj
      have hj0 : j = 0 := by simpa using Nat.lt_one_iff.mp (by simpa using hj)
      subst hj0
      exact ⟨by simp [Nat.mod_eq_of_lt hidx], rfl⟩
    | error e =>
      rw [retryLoop_step_err op jitter keys total fuel attempt st lastError _ e hg hk hk2 hop]
      obtain ⟨ih1, ih2, ih3⟩ := ih (attempt + 1)
        { st with geminiKeyIndex := (st.geminiKeyIndex + 1) % keys.length } (some e) hg
        (Nat.mod_lt _ hKpos)
      refine ⟨ih1, ?_, ?_⟩
      · rw [ih2]
        by_cases hz :
            (retryLoop op jitter keys total fuel (attempt + 1)
              { st with geminiKeyIndex := (st.geminiKeyIndex + 1) % keys.length }
              (some e)).2.1.length = 0
        · simp only [hz, if_pos rfl, List.length_cons]
          rw [if_neg (Nat.succ_ne_zero 0)]
          rfl
        · simp only [if_neg hz, List.length_cons]
          rw [if_neg (Nat.succ_ne_zero _)]
          rw [Nat.mod_add_mod]
          congr 1
          omega
      · intro j hj
        cases j with
        | zero =>
          exact ⟨by simp [Nat.mod_eq_of_lt hidx], rfl⟩
        | succ j =>
          have hj2 : j <
              (retryLoop op jitter keys total fuel (attempt + 1)
                { st with geminiKeyIndex := (st.geminiKeyIndex + 1) % keys.length }
                (some e)).2.1.length := by
            simpa using Nat.lt_of_succ_lt_succ (by simpa using hj)
          obtain ⟨ihk, iha⟩ := ih3 j hj2
          refine ⟨?_, ?_⟩
          · show ((retryLoop op jitter keys total fuel (attempt + 1)
                { st with geminiKeyIndex := (st.geminiKeyIndex + 1) % keys.length }
                (some e)).2.1.getD j default).keyIndex =
              (st.geminiKeyIndex + (j + 1)) % keys.length
            rw [ihk]
            show ((st.geminiKeyIndex + 1) % keys.length + j) % keys.length = _
            rw [Nat.mod_add_mod]
            congr 1
            omega
          · show ((retryLoop op jitter keys total fuel (attempt + 1)
                { st with geminiKeyIndex := (st.geminiKeyIndex + 1) % keys.length }
                (some e)).2.1.getD j default).attempt = attempt + (j + 1)
            rw [iha]
            omega

theorem retryLoop_delay (op : Nat → String → Except String α) (jitter : Nat → Nat)
    (keys : List String) (total : Nat) (hkeys : ∀ k ∈ keys, k ≠ "") :
    ∀ (fuel attempt : Nat) (st : ComicGeneratorAPIState) (lastError : Option String),
      st.apiKeys.gemini = some keys → st.geminiKeyIndex < keys.length →
      ∀ r ∈ (retryLoop op jitter keys total fuel attempt st lastError).2.1,
        r.delayMs = (match r.outcome with
          | some (Except.error e) =>
            if isRateLimitMsg e then
              some (backoffBase keys.length r.attempt + jitter r.attempt)
            else none
          | _ => none) := by
  intro fuel
  induction fuel with
  | zero =>
    intro attempt st lastError _ _ r hr
    cases hr
  | succ fuel ih =>
    intro attempt st lastError hg hidx
    have hKpos : 0 < keys.length := Nat.lt_of_le_of_lt (Nat.zero_le _) hidx
    have hk : keys.get? st.geminiKeyIndex = some (keys.get ⟨st.geminiKeyIndex, hidx⟩) :=
      List.get?_eq_get hidx
    have hk2 : ¬ keys.get ⟨st.geminiKeyIndex, hidx⟩ = "" :=
      hkeys _ (List.get_mem keys _ _)
    cases hop : op attempt (keys.get ⟨st.geminiKeyIndex, hidx⟩) with
    | ok v =>
      rw [retryLoop_step_ok op jitter keys total fuel attempt st lastError _ v hg hk hk2 hop]
      intro r hr
      rcases List.mem_singleton.mp hr with h1
      rw [h1]
    | error e =>
      rw [retryLoop_step_err op jitter keys total fuel attempt st lastError _ e hg hk hk2 hop]
      intro r hr
      rcases List.mem_cons.mp hr with h1 | h2
      · rw [h1]
      · exact ih (attempt + 1)
          { st with geminiKeyIndex := (st.geminiKeyIndex + 1) % keys.length } (some e) hg
          (Nat.mod_lt _ hKpos) r h2

theorem retryLoop_success (op : Nat → String → Except String α) (jitter : Nat → Nat)
    (keys : List String) (total : Nat) (hkeys : ∀ k ∈ keys, k ≠ "") :
    ∀ (fuel attempt : Nat) (st : ComicGeneratorAPIState) (lastError : Option String),
      st.apiKeys.gemini = some keys → st.geminiKeyIndex < keys.length →
      ∀ v, (retryLoop op jitter keys total fuel attempt st lastError).1 = Except.ok v →
      ∃ pre r, (retryLoop op jitter keys total fuel attempt st lastError).2.1 =
          pre ++ [r] ∧
        r.outcome = some (Except.ok v) ∧
        ∀ r2 ∈ pre, ∀ w, r2.outcome ≠ some (Except.ok w) := by
  intro fuel
  induction fuel with
  | zero =>
    intro attempt st lastError _ _ v hv
    exact absurd hv (by simp [retryLoop])
  | succ fuel ih =>
    intro attempt st lastError hg hidx v hv
    have hKpos : 0 < keys.length := Nat.lt_of_le_of_lt (Nat.zero_le _) hidx
    have hk : keys.get? st.geminiKeyIndex = some (keys.get ⟨st.geminiKeyIndex, hidx⟩) :=
      List.get?_eq_get hidx
    have hk2 : ¬ keys.get ⟨st.geminiKeyIndex, hidx⟩ = "" :=
      hkeys _ (List.get_mem keys _ _)
    cases hop : op attempt (keys.get ⟨st.geminiKeyIndex, hidx⟩) with
    | ok u =>
      rw [retryLoop_step_ok op jitter keys total fuel attempt st lastError _ u hg hk hk2 hop]
        at hv ⊢
      injection hv with huv
      subst huv
      exact ⟨[], ⟨attempt, st.geminiKeyIndex, some (keys.get ⟨st.geminiKeyIndex, hidx⟩),
        some (Except.ok u), none⟩, rfl, rfl, by intro r2 hr2; cases hr2⟩
    | error e =>
      rw [retryLoop_step_err op jitter keys total fuel attempt st lastError _ e hg hk hk2 hop]
        at hv ⊢
      obtain ⟨pre, r, hsplit, hout, hpre⟩ := ih (attempt + 1)
        { st with geminiKeyIndex := (st.geminiKeyIndex + 1) % keys.length } (some e) hg
        (Nat.mod_lt _ hKpos) v hv
      refine ⟨⟨attempt, st.geminiKeyIndex, some (keys.get ⟨st.geminiKeyIndex, hidx⟩),
        some (Except.error e),
        if isRateLimitMsg e then some (backoffBase keys.length attempt + jitter attempt)
        else none⟩ :: pre, r, ?_, hout, ?_⟩
      · rw [List.cons_append, hsplit]
      · intro r2 hr2 w
        rcases List.mem_cons.mp hr2 with h1 | h2
        · rw [h1]
          simp
        · exact hpre r2 h2 w

theorem invokedCount_le (tr : List (AttemptRec α)) : invokedCount tr ≤ tr.length :=
  List.length_filter_le _ _

theorem invokedCount_eq_length (tr : List (AttemptRec α))
    (h : ∀ r ∈ tr, r.outcome.isSome = true) : invokedCount tr = tr.length := by
  unfold invokedCount
  rw [List.filter_eq_self.mpr h]

/-! ## Claim theorems C5-C7 -/

/-- C5: for a pool of `K ≥ 1` usable keys and retry parameter `R`, the
wrapper invokes the underlying operation at most `K * R` times; when some
invocation succeeds, the successful invocation is the last one recorded
(the first success returns immediately, with no further invocations); and
when every invocation fails, it fails with an error after exactly `K * R`
invocations. -/
theorem claim5_retry_bound {α : Type} (op : Nat → String → Except String α)
    (jitter : Nat → Nat) (R : Nat) (st : ComicGeneratorAPIState) (keys : List String)
    (hg : st.apiKeys.gemini = some keys) (hkeys : ∀ k ∈ keys, k ≠ "")
    (hidx : st.geminiKeyIndex < keys.length) :
    invokedCount (callGeminiWithRetry op jitter R st).2.1 ≤ keys.length * R ∧
    ((∀ a k v, op a k ≠ Except.ok v) →
      invokedCount (callGeminiWithRetry op jitter R st).2.1 = keys.length * R ∧
      ∃ e, (callGeminiWithRetry op jitter R st).1 = Except.error e) ∧
    (∀ v, (callGeminiWithRetry op jitter R st).1 = Except.ok v →
      ∃ pre r, (callGeminiWithRetry op jitter R st).2.1 = pre ++ [r] ∧
        r.outcome = some (Except.ok v) ∧
        ∀ r2 ∈ pre, ∀ w, r2.outcome ≠ some (Except.ok w)) := by
  have hK : keys ≠ [] := by
    intro h0
    rw [h0] at hidx
    exact absurd hidx (by simp)
  rw [callGeminiWithRetry_eq op jitter R st keys hg hK]
  refine ⟨?_, ?_, ?_⟩
  · exact le_trans (invokedCount_le _)
      (retryLoop_len_le op jitter keys _ hkeys _ 0 st none hg hidx)
  · intro hop
    obtain ⟨hl, hm, he⟩ := retryLoop_all_fail op jitter keys _ hkeys hop _ 0 st none hg hidx
    exact ⟨by rw [invokedCount_eq_length _ hm, hl], he⟩
  · intro v hv
    exact retryLoop_success op jitter keys _ hkeys _ 0 st none hg hidx v hv

/-- C5 witness: two keys, two retries each, an operation that always fails:
exactly four invocations, then an error. -/
theorem claim5_retry_bound_witness :
    invokedCount (callGeminiWithRetry (fun _ _ => (Except.error "boom" : Except String Nat))
        (fun _ => 0) 2 ⟨⟨some ["k1", "k2"], none, none⟩, 0⟩).2.1 = 4 ∧
    ∃ e, (callGeminiWithRetry (fun _ _ => (Except.error "boom" : Except String Nat))
        (fun _ => 0) 2 ⟨⟨some ["k1", "k2"], none, none⟩, 0⟩).1 = Except.error e := by
  have h := claim5_retry_bound (fun _ _ => (Except.error "boom" : Except String Nat))
    (fun _ => 0) 2 ⟨⟨some ["k1", "k2"], none, none⟩, 0⟩ ["k1", "k2"] rfl (by decide)
    (by decide)
  exact h.2.1 (by intro a k v h2; cases h2)

/-- C6: the credential cursor advances by exactly one modulo the pool size
on every attempt regardless of outcome: `getNextGeminiKey` reads the key
under the cursor and bumps the cursor by one mod pool size; during a
wrapper run the `j`-th recorded attempt uses cursor `(start + j) mod K`;
the state the wrapper returns carries cursor `(start + m) mod K` after `m`
attempts, so a following call continues the rotation; and `setAPIKeys`
resets the cursor to 0. -/
theorem claim6_cursor {α : Type} (op : Nat → String → Except String α)
    (jitter : Nat → Nat) (R : Nat) (st : ComicGeneratorAPIState) (keys : List String)
    (hg : st.apiKeys.gemini = some keys) (hkeys : ∀ k ∈ keys, k ≠ "")
    (hidx : st.geminiKeyIndex < keys.length) :
    (getNextGeminiKey st).1 = keys.get? st.geminiKeyIndex ∧
    (getNextGeminiKey st).2.geminiKeyIndex = (st.geminiKeyIndex + 1) % keys.length ∧
    (∀ j, j < (callGeminiWithRetry op jitter R st).2.1.length →
      ((callGeminiWithRetry op jitter R st).2.1.getD j default).keyIndex =
        (st.geminiKeyIndex + j) % keys.length) ∧
    ((callGeminiWithRetry op jitter R st).2.2.geminiKeyIndex =
      if (callGeminiWithRetry op jitter R st).2.1.length = 0 then st.geminiKeyIndex
      else (st.geminiKeyIndex + (callGeminiWithRetry op jitter R st).2.1.length) %
        keys.length) ∧
    (∀ (ks : APIKeys) (st2 : ComicGeneratorAPIState) (storage : Option APIKeys),
      (setAPIKeys ks st2 storage).1.geminiKeyIndex = 0) := by
  have hK : keys ≠ [] := by
    intro h0
    rw [h0] at hidx
    exact absurd hidx (by simp)
  have hgk := getNextGeminiKey_some st keys hg hK
  rw [callGeminiWithRetry_eq op jitter R st keys hg hK]
  obtain ⟨-, h2, h3⟩ := retryLoop_cursor op jitter keys _ hkeys _ 0 st none hg hidx
  exact ⟨by rw [hgk], by rw [hgk], fun j hj => (h3 j hj).1, h2,
    fun ks st2 storage => rfl⟩

/-- C6 witness: with 2 keys and a success on the third attempt, the
returned cursor is `(0 + 3) mod 2 = 1`, and the three attempts used
cursors 0, 1, 0. -/
theorem claim6_cursor_witness :
    ((callGeminiWithRetry
        (fun a _ => if a = 2 then Except.ok 7 else (Except.error "x" : Except String Nat))
        (fun _ => 0) 2 ⟨⟨some ["k1", "k2"], none, none⟩, 0⟩).2.2.geminiKeyIndex = 1) ∧
    (((callGeminiWithRetry
        (fun a _ => if a = 2 then Except.ok 7 else (Except.error "x" : Except String Nat))
        (fun _ => 0) 2 ⟨⟨some ["k1", "k2"], none, none⟩, 0⟩).2.1.map
          fun r => r.keyIndex) = [0, 1, 0]) := by
  have h := claim6_cursor
    (fun a _ => if a = 2 then Except.ok 7 else (Except.error "x" : Except String Nat))
    (fun _ => 0) 2 ⟨⟨some ["k1", "k2"], none, none⟩, 0⟩ ["k1", "k2"] rfl (by decide)
    (by decide)
  refine ⟨?_, by decide⟩
  rw [h.2.2.2.1]
  decide

/-- C7: after a failed attempt whose error message signals rate limiting
(contains `429`, or `rate limit` case-insensitively), the recorded backoff
delay is `2 ^ (attempt / K) * 1000` plus the jitter drawn for that attempt
— strictly positive, growing by a factor of 2 per completed full pool
rotation and constant across attempts within the same rotation — while a
failed attempt with a non-rate-limit error records no delay. -/
theorem claim7_backoff {α : Type} (op : Nat → String → Except String α)
    (jitter : Nat → Nat) (R : Nat) (st : ComicGeneratorAPIState) (keys : List String)
    (hg : st.apiKeys.gemini = some keys) (hkeys : ∀ k ∈ keys, k ≠ "")
    (hidx : st.geminiKeyIndex < keys.length) :
    (∀ r ∈ (callGeminiWithRetry op jitter R st).2.1, ∀ e : String,
      r.outcome = some (Except.error e) →
      r.delayMs = (if isRateLimitMsg e then
          some (backoffBase keys.length r.attempt + jitter r.attempt) else none)) ∧
    (∀ r ∈ (callGeminiWithRetry op jitter R st).2.1,
      (∀ e : String, r.outcome ≠ some (Except.error e)) → r.delayMs = none) ∧
    (∀ a, 0 < backoffBase keys.length a + jitter a) ∧
    (∀ a, backoffBase keys.length (a + keys.length) = 2 * backoffBase keys.length a) ∧
    (∀ a b, a / keys.length = b / keys.length →
      backoffBase keys.length a = backoffBase keys.length b) := by
  have hK : keys ≠ [] := by
    intro h0
    rw [h0] at hidx
    exact absurd hidx (by simp)
  have hKpos : 0 < keys.length := Nat.lt_of_le_of_lt (Nat.zero_le _) hidx
  rw [callGeminiWithRetry_eq op jitter R st keys hg hK]
  have hdel := retryLoop_delay op jitter keys (keys.length * R) hkeys
    (keys.length * R) 0 st none hg hidx
  refine ⟨?_, ?_, ?_, ?_, ?_⟩
  · intro r hr e he
    have hh := hdel r hr
    rw [he] at hh
    exact hh
  · intro r hr hne
    have hh := hdel r hr
    rcases hout : r.outcome with _ | x
    · rw [hout] at hh
      exact hh
    · rcases x with e2 | v
      · exact absurd hout (hne e2)
      · rw [hout] at hh
        exact hh
  · intro a
    have h1 : 0 < backoffBase keys.length a :=
      Nat.mul_pos (pow_pos (by decide) _) (by decide)
    exact Nat.lt_of_lt_of_le h1 (Nat.le_add_right _ _)
  · intro a
    unfold backoffBase
    rw [Nat.add_div_right a hKpos, pow_succ]
    ring
  · intro a b hab
    unfold backoffBase
    rw [hab]

/-- C7 witness: with 2 keys, a persistent `429` failure and jitter 5, the
four recorded delays are `1005, 1005, 2005, 2005` (doubling per completed
rotation), and a persistent non-rate-limit failure records none. -/
theorem claim7_backoff_witness :
    (((callGeminiWithRetry (fun _ _ => (Except.error "429" : Except String Nat))
        (fun _ => 5) 2 ⟨⟨some ["k1", "k2"], none, none⟩, 0⟩).2.1.getD 2
          default).delayMs = some 2005) ∧
    (((callGeminiWithRetry (fun _ _ => (Except.error "boom" : Except String Nat))
        (fun _ => 5) 2 ⟨⟨some ["k1", "k2"], none, none⟩, 0⟩).2.1.getD 2
          default).delayMs = none) := by
  have h := claim7_backoff (fun _ _ => (Except.error "429" : Except String Nat))
    (fun _ => 5) 2 ⟨⟨some ["k1", "k2"], none, none⟩, 0⟩ ["k1", "k2"] rfl (by decide)
    (by decide)
  have h2 := claim7_backoff (fun _ _ => (Except.error "boom" : Except String Nat))
    (fun _ => 5) 2 ⟨⟨some ["k1", "k2"], none, none⟩, 0⟩ ["k1", "k2"] rfl (by decide)
    (by decide)
  constructor
  · have hh := h.1
      ((callGeminiWithRetry (fun _ _ => (Except.error "429" : Except String Nat))
        (fun _ => 5) 2 ⟨⟨some ["k1", "k2"], none, none⟩, 0⟩).2.1.getD 2 default)
      (by decide) "429" (by decide)
    rw [hh]
    decide
  · have hh := h2.1
      ((callGeminiWithRetry (fun _ _ => (Except.error "boom" : Except String Nat))
        (fun _ => 5) 2 ⟨⟨some ["k1", "k2"], none, none⟩, 0⟩).2.1.getD 2 default)
      (by decide) "boom" (by decide)
    rw [hh]
    decide

/-! ## Lemmas and claim theorems C8-C10 -/

theorem buildImagePrompt_isSome (basePrompt : String) (config : ComicConfig)
    (characters : List Character) (h : (styleModifiers config.style).isSome = true) :
    (buildImagePrompt basePrompt config characters).isSome = true := by
  rcases hs : styleModifiers config.style with _ | pn
  · rw [hs] at h
    cases h
  · simp only [buildImagePrompt, hs, Option.isSome_some]

theorem generateComicPanels_getD (gen : Nat → Except String String)
    (config : ComicConfig) (characters : List Character) (panels : List ComicPanel)
    (i : Nat) (h : i < panels.length) :
    (generateComicPanels gen config characters panels).getD i default =
      (match gen i with
       | Except.ok imageUrl =>
         { panels.getD i default with
           imageUrl := some imageUrl,
           promptUsed :=
             buildImagePrompt (panels.getD i default).sceneDescription config characters }
       | Except.error msg =>
         { panels.getD i default with
           error := some ("Generation Failed: " ++ msg) }) := by
  have hp : panels.getD i default = panels.get ⟨i, h⟩ := by
    rw [List.getD_eq_getElem?_getD, List.getElem?_eq_getElem h]
    rfl
  unfold generateComicPanels
  rw [List.getD_eq_getElem?_getD, List.getElem?_map, List.getElem?_enum,
    List.getElem?_eq_getElem h, hp]
  rfl

/-- C8 (counterexample): a result panel can carry BOTH an image reference
and an error message — a successful generation spreads the input panel,
keeping any `error` field it already had — so success and error state are
not mutually exclusive on the output record. -/
theorem claim8_counterexample :
    ∃ r : ComicPanel,
      generateComicPanels (fun _ => Except.ok "http://img")
          ⟨"openai", "flux", "cyberpunk", "16:9", 1, 1, none, true, "comic-sans"⟩ []
          [⟨"p1", "scene", "", none, none, none, some "old failure"⟩] = [r] ∧
      r.imageUrl = some "http://img" ∧ r.error = some "old failure" :=
  ⟨_, rfl, rfl, rfl⟩

/-- C8 (amended): on input panels that carry no prior image, prompt or
error fields (as produced by `processScript`), `generateComicPanels`
returns exactly one result per input panel, in input order, preserving id,
description and dialogue; the `i`-th result depends only on the `i`-th
generation outcome — success of one panel is recorded with image and
prompt and no error, failure with an error message and no image or prompt
— so one panel failing never prevents the others from being produced. -/
theorem claim8_amended (gen : Nat → Except String String) (config : ComicConfig)
    (characters : List Character) (panels : List ComicPanel)
    (hclean : ∀ p ∈ panels, p.imageUrl = none ∧ p.error = none ∧ p.promptUsed = none)
    (hstyle : (styleModifiers config.style).isSome = true) :
    (generateComicPanels gen config characters panels).length = panels.length ∧
    ∀ i, i < panels.length →
      ((generateComicPanels gen config characters panels).getD i default).id =
        (panels.getD i default).id ∧
      ((generateComicPanels gen config characters panels).getD i
          default).sceneDescription = (panels.getD i default).sceneDescription ∧
      ((generateComicPanels gen config characters panels).getD i default).dialogue =
        (panels.getD i default).dialogue ∧
      ((∃ url, gen i = Except.ok url ∧
          ((generateComicPanels gen config characters panels).getD i default).imageUrl =
            some url ∧
          ((generateComicPanels gen config characters panels).getD i
              default).promptUsed =
            buildImagePrompt (panels.getD i default).sceneDescription config characters ∧
          (((generateComicPanels gen config characters panels).getD i
              default).promptUsed).isSome = true ∧
          ((generateComicPanels gen config characters panels).getD i default).error =
            none) ∨
       (∃ msg, gen i = Except.error msg ∧
          ((generateComicPanels gen config characters panels).getD i default).error =
            some ("Generation Failed: " ++ msg) ∧
          ((generateComicPanels gen config characters panels).getD i default).imageUrl =
            none ∧
          ((generateComicPanels gen config characters panels).getD i
              default).promptUsed = none)) := by
  constructor
  · unfold generateComicPanels
    rw [List.length_map, List.enum_length]
  · intro i hi
    have hmem : panels.getD i default ∈ panels := by
      rw [List.getD_eq_getElem?_getD, List.getElem?_eq_getElem hi]
      exact List.getElem_mem hi
    obtain ⟨hcl1, hcl2, hcl3⟩ := hclean _ hmem
    rw [generateComicPanels_getD gen config characters panels i hi]
    cases hgen : gen i with
    | ok url =>
      refine ⟨rfl, rfl, rfl, Or.inl ⟨url, rfl, rfl, rfl, ?_, ?_⟩⟩
      · exact buildImagePrompt_isSome _ config characters hstyle
      · exact hcl2
    | error msg =>
      exact ⟨rfl, rfl, rfl, Or.inr ⟨msg, rfl, rfl, hcl1, hcl3⟩⟩

/-- C8 witness: a two-panel batch where panel 0 fails and panel 1
succeeds: both results are produced, the first with only an error, the
second with image and prompt and no error. -/
theorem claim8_amended_witness :
    (generateComicPanels (fun i => if i = 0 then Except.error "oops" else Except.ok "u")
        ⟨"openai", "flux", "cyberpunk", "16:9", 1, 1, none, true, "comic-sans"⟩ []
        [⟨"a", "d1", "", none, none, none, none⟩,
         ⟨"b", "d2", "", none, none, none, none⟩]).length = 2 ∧
    ((generateComicPanels (fun i => if i = 0 then Except.error "oops" else Except.ok "u")
        ⟨"openai", "flux", "cyberpunk", "16:9", 1, 1, none, true, "comic-sans"⟩ []
        [⟨"a", "d1", "", none, none, none, none⟩,
         ⟨"b", "d2", "", none, none, none, none⟩]).getD 0 default).error =
      some "Generation Failed: oops" ∧
    ((generateComicPanels (fun i => if i = 0 then Except.error "oops" else Except.ok "u")
        ⟨"openai", "flux", "cyberpunk", "16:9", 1, 1, none, true, "comic-sans"⟩ []
        [⟨"a", "d1", "", none, none, none, none⟩,
         ⟨"b", "d2", "", none, none, none, none⟩]).getD 1 default).imageUrl =
      some "u" := by
  have h := claim8_amended
    (fun i => if i = 0 then Except.error "oops" else Except.ok "u")
    ⟨"openai", "flux", "cyberpunk", "16:9", 1, 1, none, true, "comic-sans"⟩ []
    [⟨"a", "d1", "", none, none, none, none⟩, ⟨"b", "d2", "", none, none, none, none⟩]
    (by decide) rfl
  refine ⟨h.1, ?_, ?_⟩
  · rcases (h.2 0 (by decide)).2.2.2 with ⟨url, hu, -⟩ | ⟨msg, hm, he, -⟩
    · cases hu
    · injection hm with hmsg
      subst hmsg
      exact he
  · rcases (h.2 1 (by decide)).2.2.2 with ⟨url, hu, hi, -⟩ | ⟨msg, hm, -⟩
    · injection hu with hurl
      subst hurl
      exact hi
    · cases hm

/-- C9 (counterexample): with a HuggingFace key already in memory, updating
with a Gemini-only record leaves the stored record different from the
merged in-memory pool — the code persists the update argument, not the
merged pool. -/
theorem claim9_counterexample :
    (setAPIKeys ⟨some ["g"], none, none⟩ ⟨⟨none, some "hf", none⟩, 3⟩ none).2 ≠
      some ((setAPIKeys ⟨some ["g"], none, none⟩
        ⟨⟨none, some "hf", none⟩, 3⟩ none).1.apiKeys) := by
  decide

/-- C9 (amended): `setAPIKeys` always stores exactly the update argument
under the well-known key; the stored record mirrors the in-memory pool
precisely when merging the update into the prior pool gives back the
update (for instance when the prior pool is empty, or the update supplies
every field the prior pool had). -/
theorem claim9_amended (keys : APIKeys) (st : ComicGeneratorAPIState)
    (storage : Option APIKeys) :
    (setAPIKeys keys st storage).2 = some keys ∧
    (mergeAPIKeys st.apiKeys keys = keys →
      (setAPIKeys keys st storage).2 =
        some ((setAPIKeys keys st storage).1.apiKeys)) := by
  refine ⟨rfl, fun h => ?_⟩
  show some keys = some (mergeAPIKeys st.apiKeys keys)
  rw [h]

/-- C9 witness: starting from an empty pool the stored record and the
in-memory pool agree. -/
theorem claim9_amended_witness :
    (setAPIKeys ⟨some ["g"], none, none⟩ ⟨⟨none, none, none⟩, 0⟩ none).2 =
      some ((setAPIKeys ⟨some ["g"], none, none⟩
        ⟨⟨none, none, none⟩, 0⟩ none).1.apiKeys) :=
  (claim9_amended ⟨some ["g"], none, none⟩ ⟨⟨none, none, none⟩, 0⟩ none).2 (by decide)

/-- C10: the Pollinations URL is the prompt endpoint plus the serialized
parameter list, and that list contains a `seed` entry precisely when
`config.seed` is truthy: a null or zero seed contributes nothing (zero is
silently dropped, indistinguishable from null), while any non-zero seed
appears as `seed=<value>`. -/
theorem claim10_seed (config : ComicConfig) (enc : String → String) (prompt : String) :
    generateImageWithPollinations enc prompt config =
      "https://image.pollinations.ai/prompt/" ++ enc prompt ++ "?" ++
        serializeParams (pollinationsParams config) ∧
    (((pollinationsParams config).any fun kv => kv.1 = "seed") = true ↔
      ∃ s : Int, config.seed = some s ∧ s ≠ 0) ∧
    (∀ s : Int, config.seed = some s → s ≠ 0 →
      ("seed", toString s) ∈ pollinationsParams config) ∧
    (config.seed = some 0 →
      pollinationsParams config = pollinationsParams { config with seed := none }) := by
  refine ⟨rfl, ?_, ?_, ?_⟩
  · unfold pollinationsParams
    rcases hs : config.seed with _ | sv
    · simp
    · by_cases h0 : sv = 0
      · subst h0
        simp
      · simp [h0]
  · intro sv hs h0
    unfold pollinationsParams
    rw [hs]
    simp [h0]
  · intro hs
    unfold pollinationsParams
    rw [hs]
    simp

/-- C10 witness: seed 42 appears in the parameter list, seed 0 yields the
same parameters as a null seed. -/
theorem claim10_seed_witness :
    ("seed", "42") ∈ pollinationsParams
      ⟨"openai", "flux", "cyberpunk", "16:9", 1, 1, some 42, true, "comic-sans"⟩ ∧
    pollinationsParams
        ⟨"openai", "flux", "cyberpunk", "16:9", 1, 1, some 0, true, "comic-sans"⟩ =
      pollinationsParams
        ⟨"openai", "flux", "cyberpunk", "16:9", 1, 1, none, true, "comic-sans"⟩ := by
  constructor
  · exact (claim10_seed
      ⟨"openai", "flux", "cyberpunk", "16:9", 1, 1, some 42, true, "comic-sans"⟩
      id "").2.2.1 42 rfl (by decide)
  · exact (claim10_seed
      ⟨"openai", "flux", "cyberpunk", "16:9", 1, 1, some 0, true, "comic-sans"⟩
      id "").2.2.2 rfl

end ComicGen
